import Mathlib

/-!
# Verification of the build-factory / entity-model core

A shallow embedding, in Lean 4, of the CI persistence/domain layer:

* `lib/buildFactory.js` — the build orchestrator (`getCommitSha`, `create`,
  `getBuildsForJobId`, `getInstance`);
* the change-tracked base entity model exercised by `test/lib/base.test.js`
  (the model itself, `lib/base.js`, and the generic factory `lib/baseFactory.js`
  are not in the sources; those parts are modelled from the specification, and
  each such definition says so in its doc comment).

JavaScript promise chains are embedded as sequential functions returning
`Except JsError α` together with an explicit trace of the external-collaborator
calls performed (`Event` / `UpdateCall` lists); external collaborators
(datastore, user factory, job factory, scm plugin, the runtime's clock/ISO
formatter) are oracle functions gathered in an `Env` record.  JavaScript
truthiness on optional strings (`undefined` and `""` are falsy) is modelled by
`truthy`.
-/

/-- One command of a job permutation (`{name: ...}`). -/
structure Command where
  name : String
deriving DecidableEq, Repr

/-- One permutation of a job: an image and a command list. -/
structure Permutation where
  image : String
  commands : List Command
deriving DecidableEq, Repr

/-- The pipeline associated with a job (only its `scmUrl` matters here). -/
structure Pipeline where
  scmUrl : String
deriving DecidableEq, Repr

/-- A job as the build factory sees it: its permutations and its (possibly
absent) pipeline, the latter embedding the awaited `job.pipeline` promise. -/
structure Job where
  permutations : List Permutation
  pipeline : Option Pipeline
deriving DecidableEq, Repr

/-- A user record; its sealed token is unsealed through the environment. -/
structure User where
  username : String
deriving DecidableEq, Repr

/-- A persisted step object `{name: ...}`. -/
structure Step where
  name : String
deriving DecidableEq, Repr

/-- The data of a persisted build record as assembled by
`BuildFactory.create`. -/
structure BuildData where
  jobId : String
  username : String
  cause : String
  createTime : String
  number : Nat
  status : String
  sha : String
  container : String
  steps : List Step
deriving DecidableEq, Repr

/-- The config argument of `BuildFactory.create`:
`{jobId, username, sha?}`. -/
structure CreateConfig where
  jobId : String
  username : String
  sha : Option String
deriving DecidableEq, Repr

/-- JavaScript errors: descriptive `new Error(msg)` rejections versus the
`TypeError` raised by dereferencing `undefined`. -/
inductive JsError where
  | error (message : String)
  | typeError (message : String)
deriving DecidableEq, Repr

/-- External-collaborator calls made during `BuildFactory.create`, in order. -/
inductive Event where
  | getJob (jobId : String)
  | getUser (username : String)
  | unsealToken
  | scmGetCommitSha (scmUrl : String) (token : String)
  | datastoreCreate
  | start
deriving DecidableEq, Repr

/-- The external collaborators of `BuildFactory.create`: the job factory's and
user factory's `get`, the user model's `unsealToken`, the scm plugin's
`getCommitSha`, the runtime's ISO-8601 formatter for an epoch-millisecond
timestamp, and the datastore's `create`. -/
structure Env where
  getJob : String → Option Job
  getUser : String → Option User
  unsealToken : User → String
  scmGetCommitSha : String → String → String
  toISOString : Nat → String
  dsCreate : BuildData → Except String Unit

/-- JavaScript truthiness of an optional string: `undefined` (here `none`) and
the empty string are falsy. -/
def truthy : Option String → Bool
  | none => false
  | some s => !(s == "")

/-- Embedding of `getCommitSha` from `lib/buildFactory.js` (lines 19–52): short-circuit on a
truthy `modelConfig.sha`; otherwise fetch the user and the job's pipeline,
check them in that order, unseal the user's token and look the sha up through
the scm plugin.  Returns the result together with the trace of collaborator
calls. -/
def getCommitSha (env : Env) (job : Job) (sha : Option String)
    (username : String) : Except JsError String × List Event :=
  if truthy sha then
    (Except.ok (sha.getD ""), [])
  else
    match env.getUser username with
    | none => (Except.error (JsError.error "User does not exist"),
        [Event.getUser username])
    | some user =>
      match job.pipeline with
      | none => (Except.error (JsError.error "Pipeline does not exist"),
          [Event.getUser username])
      | some pipeline =>
        let token := env.unsealToken user
        (Except.ok (env.scmGetCommitSha pipeline.scmUrl token),
          [Event.getUser username, Event.unsealToken,
            Event.scmGetCommitSha pipeline.scmUrl token])

/-- JavaScript `String.prototype.split` with a one-character separator, on the
character list of the string.  `jsSplit sep s` never returns `[]`, and
`"a.b".split('.') = ["a","b"]`, `"ab".split('.') = ["ab"]`. -/
def jsSplit (sep : Char) : List Char → List (List Char)
  | [] => [[]]
  | c :: rest =>
    if c = sep then [] :: jsSplit sep rest
    else
      match jsSplit sep rest with
      | [] => [[c]]
      | g :: gs => (c :: g) :: gs

/-- The permutation index of `lib/buildFactory.js` line 130:
`number.toString().split('.')[1] || 0`, where a defined fractional part would
be coerced to a number when used as an array index.  `number` is `Date.now()`,
a natural number of milliseconds, rendered in decimal. -/
def permutationIndex (number : Nat) : Nat :=
  match (jsSplit '.' (Nat.repr number).data).get? 1 with
  | some frac => (String.toNat? ⟨frac⟩).getD 0
  | none => 0

/-- Embedding of `BuildFactory.create` from `lib/buildFactory.js` (lines 104–145): take the
creation timestamp and its ISO rendering, fetch the job, resolve the sha via
`getCommitSha`, select the permutation at `permutationIndex`, assemble the
step list (`sd-setup`, the permutation's command names, `sd-teardown`), build
the model config (`hoek.applyToDefaults` forcing `cause`, `createTime`,
`number`, `status`), persist it through the base factory and start the build.
Dereferencing a missing permutation (`permutation.image`) is the `TypeError`
branch.  The base factory's `create` and the build's `start` are not in the
sources; modelled from the spec: §4.2 "constructs a record via `createClass`,
persists it through the datastore's create operation, and returns the
constructed, persisted record", §4.3 step 6 resolves with the started build
record. -/
def BuildFactory.create (env : Env) (number : Nat) (config : CreateConfig) :
    Except JsError BuildData × List Event :=
  let createTime := env.toISOString number
  match env.getJob config.jobId with
  | none => (Except.error (JsError.error "Job does not exist"),
      [Event.getJob config.jobId])
  | some job =>
    match getCommitSha env job config.sha config.username with
    | (Except.error e, evs) => (Except.error e, Event.getJob config.jobId :: evs)
    | (Except.ok sha, evs) =>
      match job.permutations.get? (permutationIndex number) with
      | none =>
        (Except.error
          (JsError.typeError "Cannot read property image of undefined"),
          Event.getJob config.jobId :: evs)
      | some permutation =>
        let build : BuildData :=
          { jobId := config.jobId
            username := config.username
            cause := "Started by user " ++ config.username
            createTime := createTime
            number := number
            status := "QUEUED"
            sha := sha
            container := permutation.image
            steps := { name := "sd-setup" } ::
              (permutation.commands.map (fun c => { name := c.name })
                ++ [{ name := "sd-teardown" }]) }
        match env.dsCreate build with
        | Except.error e =>
          (Except.error (JsError.error e),
            Event.getJob config.jobId :: evs ++ [Event.datastoreCreate])
        | Except.ok _ =>
          (Except.ok build,
            Event.getJob config.jobId :: evs
              ++ [Event.datastoreCreate, Event.start])

/-- The list configuration the datastore is invoked with
(`{params: {jobId}, paginate: {count, page}}`). -/
structure ListConfig where
  jobId : String
  count : Nat
  page : Nat
deriving DecidableEq, Repr

/-- The ascending-by-`number` order of the JavaScript comparator
`(build1, build2) => build1.number - build2.number`. -/
def numberLE (a b : BuildData) : Prop := a.number ≤ b.number

instance : DecidableRel numberLE := fun a b => Nat.decLe a.number b.number

instance : IsTotal BuildData numberLE := ⟨fun a b => Nat.le_total a.number b.number⟩

instance : IsTrans BuildData numberLE := ⟨fun _ _ _ h h' => Nat.le_trans h h'⟩

/-- Embedding of `getBuildsForJobId` from `lib/buildFactory.js` (lines 154–167): list builds
with the fixed `{count: 25, page: 1}` pagination filtered by `jobId`, then sort
the records ascending by `number`.  The base factory's `list` is not in the
sources, so the datastore-backed listing is the oracle `listFn` (modelled from
the spec: §4.2 `list` delegates to the datastore and wraps each row); the
JavaScript stable comparator sort is embedded as a stable insertion sort by
`numberLE`. -/
def getBuildsForJobId (listFn : ListConfig → List BuildData)
    (jobId : String) : List BuildData :=
  List.insertionSort numberLE (listFn { jobId := jobId, count := 25, page := 1 })

/-- The configuration handed to the factory singleton accessor.  `executor`
and `scmPlugin` are objects (truthy whenever present), `uiUri` is a string
(JavaScript-falsy when empty), `datastore` is kept abstract. -/
structure FactoryConfig where
  datastore : Option Unit
  executor : Option Unit
  uiUri : Option String
  scmPlugin : Option Unit
deriving DecidableEq, Repr

/-- A constructed `BuildFactory` instance, carrying the configuration it was
constructed from. -/
structure BFInstance where
  config : Option FactoryConfig
deriving DecidableEq, Repr

/-- Modelled from the spec: `lib/baseFactory.js` is not in the sources.
§4.2 `getInstance(ConcreteFactory, existingInstance, config)`: "if no instance
exists yet, ... constructs and caches the instance; if an instance already
exists, ignores `config` and returns the cached instance." -/
def BaseFactory.getInstance (existing : Option BFInstance)
    (config : Option FactoryConfig) : BFInstance :=
  match existing with
  | some i => i
  | none => { config := config }

/-- Embedding of `BuildFactory.getInstance` from `lib/buildFactory.js` (lines 178–192) as a
transition on the module-level `instance` variable: the pair returned is the
thrown-or-returned result together with the new value of `instance` (unchanged
when a configuration error is thrown). -/
def BuildFactory.getInstance (inst : Option BFInstance)
    (config : Option FactoryConfig) :
    Except JsError BFInstance × Option BFInstance :=
  if inst.isNone && !(config.bind (fun c => c.executor)).isSome then
    (Except.error (JsError.error "No executor provided to BuildFactory"), inst)
  else if inst.isNone && !(truthy (config.bind (fun c => c.uiUri))) then
    (Except.error (JsError.error "No uiUri provided to BuildFactory"), inst)
  else if inst.isNone && !(config.bind (fun c => c.scmPlugin)).isSome then
    (Except.error (JsError.error "No scm plugin provided to BuildFactory"), inst)
  else
    let newInst := BaseFactory.getInstance inst config
    (Except.ok newInst, some newInst)

/-- Modelled from the spec: `lib/base.js` is not in the sources (only its test,
`test/lib/base.test.js`, is).  A change-tracked entity record (§3, §4.1):
the schema-declared key list, the snapshot of values as last persisted, and
the current values.  Field values are `Option String`, `none` embedding a
JavaScript `undefined`. -/
structure BaseModel where
  table : String
  allKeys : List String
  snapshot : List (String × Option String)
  current : List (String × Option String)
deriving DecidableEq, Repr

/-- Modelled from the spec: construction (§4.1) stores only the schema-declared
fields, in schema-declared order, and takes an immediate snapshot for diffing;
`test/lib/base.test.js` lines 67–79 (each declared key gets `config`'s value). -/
def BaseModel.construct (table : String) (allKeys : List String)
    (config : List (String × String)) : BaseModel :=
  let vals := allKeys.map (fun k => (k, config.lookup k))
  { table := table, allKeys := allKeys, snapshot := vals, current := vals }

/-- Assignment to a declared field (`base.foo = 'banana'`): replace the field's
current value, leaving the snapshot untouched. -/
def BaseModel.set (m : BaseModel) (k : String) (v : String) : BaseModel :=
  { m with current :=
      m.current.map (fun p => if p.1 = k then (p.1, some v) else p) }

/-- Modelled from the spec: the changed-field map `update()` computes (§4.1),
"fields whose current value differs from snapshot" (§3). -/
def BaseModel.changedFields (m : BaseModel) : List (String × Option String) :=
  m.current.filter (fun p => m.snapshot.lookup p.1 ≠ some p.2)

/-- Modelled from the spec: `isDirty(key?)` (§4.1): "with no argument, true iff
any declared field differs from snapshot; with a key, true iff that specific
field differs." -/
def BaseModel.isDirty (m : BaseModel) (key : Option String) : Bool :=
  match key with
  | some k => m.current.lookup k != m.snapshot.lookup k
  | none => m.allKeys.any (fun k => m.current.lookup k != m.snapshot.lookup k)

/-- The record's id, as used to key the datastore update. -/
def BaseModel.getId (m : BaseModel) : Option String :=
  (m.current.lookup "id").bind (fun v => v)

/-- The argument object of `datastore.update({table, params: {id, data}})`. -/
structure UpdateCall where
  table : String
  id : Option String
  data : List (String × Option String)
deriving DecidableEq, Repr

/-- Modelled from the spec: `update()` (§4.1, exercised by
`test/lib/base.test.js` lines 82–128): compute the changed-field map; if
empty, resolve immediately with the unchanged record and no datastore call;
otherwise invoke the datastore's update with `{table, params: {id, data}}`;
on success replace the snapshot with the current values and resolve with the
record; on failure reject with the underlying error unchanged.  The second
component is the list of datastore update calls made. -/
def BaseModel.update (m : BaseModel)
    (ds : UpdateCall → Except String Unit) :
    Except String BaseModel × List UpdateCall :=
  let data := m.changedFields
  if data.isEmpty then
    (Except.ok m, [])
  else
    let call : UpdateCall := { table := m.table, id := m.getId, data := data }
    match ds call with
    | Except.error e => (Except.error e, [call])
    | Except.ok _ => (Except.ok { m with snapshot := m.current }, [call])

/-- Well-formedness of a record (§3): the declared keys are unique and both
value lists are keyed exactly by the declared keys, in schema order. -/
def BaseModel.WF (m : BaseModel) : Prop :=
  m.allKeys.Nodup ∧ m.current.map Prod.fst = m.allKeys ∧
    m.snapshot.map Prod.fst = m.allKeys

/-- Fixture: the job of the spec's build-creation scenario
(`[{image:"node:8", commands:[{name:"install"},{name:"test"}]}]`). -/
def sampleJob : Job :=
  { permutations :=
      [⟨"node:8", [{ name := "install" }, { name := "test" }]⟩],
    pipeline := some { scmUrl := "git@github.com:org/repo.git" } }

/-- Fixture: a job whose pipeline is absent. -/
def noPipelineJob : Job :=
  { permutations := [{ image := "node:8", commands := [{ name := "install" }] }],
    pipeline := none }

/-- Fixture: a job with an empty permutation array. -/
def emptyPermsJob : Job :=
  { permutations := [], pipeline := some { scmUrl := "url" } }

/-- Fixture: an environment in which every collaborator succeeds. -/
def sampleEnv : Env :=
  { getJob := fun _ => some sampleJob
    getUser := fun u => some { username := u }
    unsealToken := fun _ => "token"
    scmGetCommitSha := fun _ _ => "deadbeef"
    toISOString := fun n => Nat.repr n
    dsCreate := fun _ => Except.ok () }

/-- Fixture: the config of `test/lib/base.test.js` (schema keys
`id`, `foo`, `bar`). -/
def sampleConfig : List (String × String) :=
  [("id", "as12345"), ("foo", "foo"), ("bar", "bar")]

/-- Fixture: the freshly constructed base record of the test. -/
def sampleBase : BaseModel :=
  BaseModel.construct "base" ["id", "foo", "bar"] sampleConfig

/-- Fixture: the record after `base.foo = 'banana'`. -/
def sampleDirty : BaseModel := sampleBase.set "foo" "banana"

/-- Fixture: a datastore whose update succeeds. -/
def dsOk : UpdateCall → Except String Unit := fun _ => Except.ok ()

/-- Fixture: a datastore whose update fails. -/
def dsFail : UpdateCall → Except String Unit :=
  fun _ => Except.error "iLessThanThreeMocha"

/-- Fixture: a build record with `number = 5`. -/
def buildA : BuildData :=
  { jobId := "j", username := "u", cause := "c", createTime := "t",
    number := 5, status := "QUEUED", sha := "a", container := "node:8",
    steps := [] }

/-- Fixture: a second build record also with `number = 5`. -/
def buildB : BuildData := { buildA with sha := "b" }

/-- Fixture: a build record with `number = 3`. -/
def buildC : BuildData := { buildA with number := 3, sha := "c" }

/-- Fixture: the record `create` persists for `sha:"abc123"` at timestamp 7. -/
def sampleBuild : BuildData :=
  { jobId := "job1", username := "myuser", cause := "Started by user myuser",
    createTime := "7", number := 7, status := "QUEUED", sha := "abc123",
    container := "node:8",
    steps := [{ name := "sd-setup" }, { name := "install" }, { name := "test" },
      { name := "sd-teardown" }] }

/-- Fixture: the record `create` persists at timestamp 1739275000000. -/
def sampleBuild1739 : BuildData :=
  { sampleBuild with
      username := "u"
      cause := "Started by user u"
      createTime := "1739275000000"
      number := 1739275000000 }

/-- Fixture: an environment whose job lookup finds nothing. -/
def envNoJob : Env := { sampleEnv with getJob := fun _ => none }

/-- Fixture: an environment whose user lookup finds nothing. -/
def envNoUser : Env := { sampleEnv with getUser := fun _ => none }

/-- Fixture: an environment resolving every job to `noPipelineJob`. -/
def envNoPipeline : Env :=
  { sampleEnv with getJob := fun _ => some noPipelineJob }

/-- Fixture: an environment resolving every job to `emptyPermsJob`. -/
def envEmptyPerms : Env :=
  { sampleEnv with getJob := fun _ => some emptyPermsJob }

/-- Fixture: a complete factory configuration. -/
def fullConfig : FactoryConfig :=
  { datastore := some (), executor := some (), uiUri := some "http://ui",
    scmPlugin := some () }

/-- Fixture: a factory configuration missing its executor. -/
def noExecConfig : FactoryConfig := { fullConfig with executor := none }

deriving instance DecidableEq for Except

/-! ## Helper lemmas -/

theorem digitChar_ne_dot (m : Nat) : Nat.digitChar m ≠ '.' := by
  rcases Nat.lt_or_ge m 16 with h | h
  · interval_cases m <;> decide
  · simp only [Nat.digitChar, if_neg (show ¬ m = 0 by omega),
      if_neg (show ¬ m = 1 by omega), if_neg (show ¬ m = 2 by omega),
      if_neg (show ¬ m = 3 by omega), if_neg (show ¬ m = 4 by omega),
      if_neg (show ¬ m = 5 by omega), if_neg (show ¬ m = 6 by omega),
      if_neg (show ¬ m = 7 by omega), if_neg (show ¬ m = 8 by omega),
      if_neg (show ¬ m = 9 by omega), if_neg (show ¬ m = 10 by omega),
      if_neg (show ¬ m = 11 by omega), if_neg (show ¬ m = 12 by omega),
      if_neg (show ¬ m = 13 by omega), if_neg (show ¬ m = 14 by omega),
      if_neg (show ¬ m = 15 by omega)]
    decide

theorem toDigitsCore_ne_dot (fuel : Nat) :
    ∀ (n : Nat) (ds : List Char), (∀ c ∈ ds, c ≠ '.') →
      ∀ c ∈ Nat.toDigitsCore 10 fuel n ds, c ≠ '.' := by
  induction fuel with
  | zero => intro n ds h; simpa [Nat.toDigitsCore] using h
  | succ f ih =>
    intro n ds h
    simp only [Nat.toDigitsCore]
    split
    · intro c hc
      rcases List.mem_cons.mp hc with h1 | h2
      · subst h1; exact digitChar_ne_dot _
      · exact h c h2
    · refine ih _ _ ?_
      intro c hc
      rcases List.mem_cons.mp hc with h1 | h2
      · subst h1; exact digitChar_ne_dot _
      · exact h c h2

/-- The decimal rendering of a natural number contains no decimal point. -/
theorem repr_ne_dot (n : Nat) : ∀ c ∈ (Nat.repr n).data, c ≠ '.' := by
  have h : (Nat.repr n).data = Nat.toDigitsCore 10 (n + 1) n [] := rfl
  rw [h]
  exact toDigitsCore_ne_dot (n + 1) n [] (by intro c hc; cases hc)

/-- Splitting on a character that does not occur returns the whole string. -/
theorem jsSplit_of_notMem (sep : Char) (s : List Char) (h : sep ∉ s) :
    jsSplit sep s = [s] := by
  induction s with
  | nil => rfl
  | cons c rest ih =>
    have hcr : sep ∉ rest := fun hm => h (List.mem_cons_of_mem _ hm)
    have hc : ¬ c = sep := fun e => h (e ▸ List.mem_cons_self _ _)
    simp [jsSplit, hc, ih hcr]

/-- The index `number.toString().split('.')[1] || 0` is `0` for every natural
timestamp. -/
theorem permutationIndex_eq_zero (number : Nat) : permutationIndex number = 0 := by
  unfold permutationIndex
  rw [jsSplit_of_notMem '.' (Nat.repr number).data
    (fun hm => repr_ne_dot number '.' hm rfl)]
  rfl

theorem getCommitSha_of_truthy (env : Env) (job : Job) (sha : Option String)
    (username : String) (h : truthy sha = true) :
    getCommitSha env job sha username = (Except.ok (sha.getD ""), []) := by
  unfold getCommitSha
  rw [if_pos h]

theorem getCommitSha_user_none (env : Env) (job : Job) (username : String)
    (hu : env.getUser username = none) :
    getCommitSha env job none username
      = (Except.error (JsError.error "User does not exist"),
          [Event.getUser username]) := by
  unfold getCommitSha
  rw [if_neg (by decide), hu]

theorem getCommitSha_pipeline_none (env : Env) (job : Job) (username : String)
    (user : User) (hu : env.getUser username = some user)
    (hp : job.pipeline = none) :
    getCommitSha env job none username
      = (Except.error (JsError.error "Pipeline does not exist"),
          [Event.getUser username]) := by
  unfold getCommitSha
  rw [if_neg (by decide), hu, hp]

/-- Inversion of a successful `BuildFactory.create`: the job was found, the
sha resolved, the permutation selected, and the resulting record is exactly
the assembled model config. -/
theorem create_ok_inv (env : Env) (number : Nat) (config : CreateConfig)
    (b : BuildData)
    (h : (BuildFactory.create env number config).1 = Except.ok b) :
    ∃ job sha permutation,
      env.getJob config.jobId = some job ∧
      (getCommitSha env job config.sha config.username).1 = Except.ok sha ∧
      job.permutations.get? (permutationIndex number) = some permutation ∧
      b = { jobId := config.jobId
            username := config.username
            cause := "Started by user " ++ config.username
            createTime := env.toISOString number
            number := number
            status := "QUEUED"
            sha := sha
            container := permutation.image
            steps := { name := "sd-setup" } ::
              (permutation.commands.map (fun c => ({ name := c.name } : Step))
                ++ [{ name := "sd-teardown" }]) } := by
  unfold BuildFactory.create at h
  split at h
  · simp at h
  · rename_i job hjob
    split at h
    · simp at h
    · rename_i sha evs hsha
      split at h
      · simp at h
      · rename_i permutation hperm
        refine ⟨job, sha, permutation, hjob, ?_, hperm, ?_⟩
        · rw [hsha]
        · dsimp only at h
          split at h
          · simp at h
          · simpa using h.symm

theorem lookup_eq_some_of_mem {V : Type} (l : List (String × V)) (k : String)
    (v : V) (hn : (l.map Prod.fst).Nodup) (h : (k, v) ∈ l) :
    l.lookup k = some v := by
  induction l with
  | nil => cases h
  | cons p rest ih =>
    obtain ⟨k', v'⟩ := p
    rw [List.map_cons, List.nodup_cons] at hn
    rcases List.mem_cons.mp h with h1 | h2
    · rw [Prod.mk.injEq] at h1
      obtain ⟨e1, e2⟩ := h1
      subst e1; subst e2
      simp
    · have hk : (k == k') = false := by
        rw [beq_eq_false_iff_ne]
        intro e; subst e
        exact hn.1 (List.mem_map.mpr ⟨(k, v), h2, rfl⟩)
      simp only [List.lookup_cons, hk]
      exact ih hn.2 h2

theorem mem_of_lookup_eq_some {V : Type} (l : List (String × V)) (k : String)
    (v : V) (h : l.lookup k = some v) : (k, v) ∈ l := by
  induction l with
  | nil => simp [List.lookup] at h
  | cons p rest ih =>
    obtain ⟨k', v'⟩ := p
    rw [List.lookup_cons] at h
    by_cases hk : k = k'
    · subst hk
      simp only [beq_self_eq_true] at h
      obtain rfl : v' = v := by simpa using h
      exact List.mem_cons_self _ _
    · simp only [beq_eq_false_iff_ne.mpr hk] at h
      exact List.mem_cons_of_mem _ (ih h)

theorem lookup_isSome_of_mem_keys {V : Type} (l : List (String × V))
    (k : String) (h : k ∈ l.map Prod.fst) : (l.lookup k).isSome := by
  induction l with
  | nil => cases h
  | cons p rest ih =>
    obtain ⟨k', v'⟩ := p
    rw [List.lookup_cons]
    by_cases hk : k = k'
    · subst hk; simp
    · simp only [beq_eq_false_iff_ne.mpr hk]
      rcases List.mem_cons.mp h with h1 | h2
      · exact absurd h1 hk
      · exact ih h2

theorem isDirty_none_false_iff (m : BaseModel) (hwf : m.WF) :
    m.isDirty none = false ↔ m.changedFields = [] := by
  obtain ⟨hnd, hck, hsk⟩ := hwf
  constructor
  · intro hd
    rw [BaseModel.changedFields, List.filter_eq_nil_iff]
    rintro ⟨k, v⟩ hp
    have hk : k ∈ m.allKeys := hck ▸ List.mem_map.mpr ⟨(k, v), hp, rfl⟩
    have hlk : m.current.lookup k = some v :=
      lookup_eq_some_of_mem _ _ _ (hck ▸ hnd) hp
    simp only [BaseModel.isDirty, List.any_eq_false] at hd
    have heq : m.current.lookup k = m.snapshot.lookup k := by
      have := hd k hk
      simpa [bne_iff_ne] using this
    simp [← heq, hlk]
  · intro hcf
    simp only [BaseModel.isDirty, List.any_eq_false]
    intro k hk
    have hkc : k ∈ m.current.map Prod.fst := hck.symm ▸ hk
    obtain ⟨⟨k0, v⟩, hp, hpk⟩ := List.mem_map.mp hkc
    simp only at hpk
    subst hpk
    have hlk : m.current.lookup k0 = some v :=
      lookup_eq_some_of_mem _ _ _ (hck ▸ hnd) hp
    have hnp := List.filter_eq_nil_iff.mp hcf _ hp
    have hsl : m.snapshot.lookup k0 = some v := by simpa using hnp
    simp [hlk, hsl]

theorem lookup_set_self (l : List (String × Option String)) (k : String)
    (v : String) (hk : k ∈ l.map Prod.fst) :
    (l.map (fun p => if p.1 = k then (p.1, some v) else p)).lookup k
      = some (some v) := by
  induction l with
  | nil => cases hk
  | cons p rest ih =>
    obtain ⟨k', v'⟩ := p
    by_cases h : k' = k
    · subst h
      simp [List.lookup_cons]
    · rcases List.mem_cons.mp hk with h1 | h2
      · exact absurd h1.symm h
      · simp only [List.map_cons, if_neg h, List.lookup_cons,
          beq_eq_false_iff_ne.mpr (fun e => h e.symm)]
        exact ih h2

theorem datastoreCreate_notMem_getCommitSha (env : Env) (job : Job)
    (sha : Option String) (username : String) :
    Event.datastoreCreate ∉ (getCommitSha env job sha username).2 := by
  unfold getCommitSha
  split
  · simp
  · split
    · simp
    · split <;> simp

/-- C9: for every `BuildFactory.create` call the permutation index derived
from the creation timestamp is `0` — `number.toString()` contains no `'.'`,
so `split('.')[1]` is undefined and the `|| 0` fallback is taken — hence the
build's container and steps always come from `job.permutations[0]`. -/
theorem claim_C9 (env : Env) (number : Nat) (config : CreateConfig) :
    permutationIndex number = 0 ∧
    (∀ (job : Job) (b : BuildData), env.getJob config.jobId = some job →
      (BuildFactory.create env number config).1 = Except.ok b →
      ∃ p, job.permutations.get? 0 = some p ∧ b.container = p.image ∧
        b.steps = { name := "sd-setup" } ::
          (p.commands.map (fun c => ({ name := c.name } : Step))
            ++ [{ name := "sd-teardown" }])) := by
  refine ⟨permutationIndex_eq_zero number, ?_⟩
  intro job b hjob hb
  obtain ⟨job', sha, p, hjob', hsha, hperm, hbeq⟩ :=
    create_ok_inv env number config b hb
  rw [hjob] at hjob'
  injection hjob' with e
  subst e
  rw [permutationIndex_eq_zero] at hperm
  exact ⟨p, hperm, by rw [hbeq], by rw [hbeq]⟩

/-- C9 witness at a concrete timestamp and environment. -/
theorem claim_C9_witness :
    sampleEnv.getJob "job1" = some sampleJob ∧
    (BuildFactory.create sampleEnv 1739275000000
        { jobId := "job1", username := "u", sha := some "abc123" }).1
      = Except.ok sampleBuild1739 ∧
    (permutationIndex 1739275000000 = 0 ∧
      ∃ p, sampleJob.permutations.get? 0 = some p ∧
        sampleBuild1739.container = p.image ∧
        sampleBuild1739.steps = { name := "sd-setup" } ::
          (p.commands.map (fun c => ({ name := c.name } : Step))
            ++ [{ name := "sd-teardown" }])) :=
  ⟨rfl, by decide,
    (claim_C9 sampleEnv 1739275000000
        { jobId := "job1", username := "u", sha := some "abc123" }).1,
    (claim_C9 sampleEnv 1739275000000
        { jobId := "job1", username := "u", sha := some "abc123" }).2
      sampleJob sampleBuild1739 rfl (by decide)⟩

/-- C7: every record a successful `BuildFactory.create` persists has
`status = "QUEUED"`, `cause = "Started by user " + username`, `number` the
creation timestamp taken at the start of the call, and `createTime` the
ISO-8601 rendering of that same number. -/
theorem claim_C7 (env : Env) (number : Nat) (config : CreateConfig)
    (b : BuildData)
    (h : (BuildFactory.create env number config).1 = Except.ok b) :
    b.status = "QUEUED" ∧
    b.cause = "Started by user " ++ config.username ∧
    b.number = number ∧
    b.createTime = env.toISOString number := by
  obtain ⟨job, sha, permutation, _, _, _, hbeq⟩ :=
    create_ok_inv env number config b h
  subst hbeq
  exact ⟨rfl, rfl, rfl, rfl⟩

/-- C7 witness at a concrete environment and timestamp. -/
theorem claim_C7_witness :
    (BuildFactory.create sampleEnv 7
        { jobId := "job1", username := "myuser", sha := some "abc123" }).1
      = Except.ok sampleBuild ∧
    (sampleBuild.status = "QUEUED" ∧
      sampleBuild.cause = "Started by user " ++ "myuser" ∧
      sampleBuild.number = 7 ∧
      sampleBuild.createTime = sampleEnv.toISOString 7) :=
  ⟨by decide,
    claim_C7 sampleEnv 7 { jobId := "job1", username := "myuser", sha := some "abc123" }
      sampleBuild (by decide)⟩

/-- C10: when the resolved job's permutation array is empty (and the sha
resolution itself succeeded), selecting the permutation dereferences
`undefined`, so `create` rejects with a `TypeError` — not a descriptive
not-found error — and no persistence call is made. -/
theorem claim_C10 (env : Env) (number : Nat) (config : CreateConfig)
    (job : Job) (sha : String)
    (hjob : env.getJob config.jobId = some job)
    (hperms : job.permutations = [])
    (hsha : (getCommitSha env job config.sha config.username).1
      = Except.ok sha) :
    (BuildFactory.create env number config).1
        = Except.error (JsError.typeError "Cannot read property image of undefined") ∧
    Event.datastoreCreate ∉ (BuildFactory.create env number config).2 := by
  have hpair : getCommitSha env job config.sha config.username
      = (Except.ok sha, (getCommitSha env job config.sha config.username).2) := by
    rw [← hsha]
  unfold BuildFactory.create
  rw [hjob]
  dsimp only
  rw [hpair]
  dsimp only
  rw [hperms]
  refine ⟨rfl, ?_⟩
  intro hmem
  rcases List.mem_cons.mp hmem with h1 | h2
  · exact absurd h1 (by simp)
  · exact datastoreCreate_notMem_getCommitSha env job config.sha
      config.username h2

/-- C10 witness: a job with an empty permutation array and a pre-supplied
sha. -/
theorem claim_C10_witness :
    envEmptyPerms.getJob "j" = some emptyPermsJob ∧
    emptyPermsJob.permutations = [] ∧
    (getCommitSha envEmptyPerms emptyPermsJob (some "abc") "u").1
        = Except.ok "abc" ∧
    ((BuildFactory.create envEmptyPerms 4
          { jobId := "j", username := "u", sha := some "abc" }).1
        = Except.error
            (JsError.typeError "Cannot read property image of undefined") ∧
      Event.datastoreCreate ∉ (BuildFactory.create envEmptyPerms 4
          { jobId := "j", username := "u", sha := some "abc" }).2) :=
  ⟨rfl, rfl, by decide,
    claim_C10 envEmptyPerms 4 { jobId := "j", username := "u", sha := some "abc" }
      emptyPermsJob "abc" rfl rfl (by decide)⟩

/-- C2: `create` rejects with "Job does not exist" when the job is absent;
with no supplied sha, with "User does not exist" when the user is absent,
and (job and user present) with "Pipeline does not exist" when the job's
pipeline is absent; in each case no datastore persistence call is made. -/
theorem claim_C2 (env : Env) (number : Nat) (config : CreateConfig) :
    (env.getJob config.jobId = none →
      (BuildFactory.create env number config).1
          = Except.error (JsError.error "Job does not exist") ∧
        Event.datastoreCreate ∉ (BuildFactory.create env number config).2) ∧
    (config.sha = none → ∀ job, env.getJob config.jobId = some job →
      env.getUser config.username = none →
      (BuildFactory.create env number config).1
          = Except.error (JsError.error "User does not exist") ∧
        Event.datastoreCreate ∉ (BuildFactory.create env number config).2) ∧
    (config.sha = none → ∀ job, env.getJob config.jobId = some job →
      ∀ user, env.getUser config.username = some user → job.pipeline = none →
      (BuildFactory.create env number config).1
          = Except.error (JsError.error "Pipeline does not exist") ∧
        Event.datastoreCreate ∉ (BuildFactory.create env number config).2) := by
  refine ⟨?_, ?_, ?_⟩
  · intro hjob
    unfold BuildFactory.create
    rw [hjob]
    exact ⟨rfl, by simp⟩
  · intro hsha job hjob huser
    unfold BuildFactory.create
    rw [hjob]
    dsimp only
    rw [hsha, getCommitSha_user_none env job config.username huser]
    exact ⟨rfl, by simp⟩
  · intro hsha job hjob user huser hpipe
    unfold BuildFactory.create
    rw [hjob]
    dsimp only
    rw [hsha, getCommitSha_pipeline_none env job config.username user huser hpipe]
    exact ⟨rfl, by simp⟩

/-- C2 witness: the three rejection scenarios at concrete environments. -/
theorem claim_C2_witness :
    (envNoJob.getJob "j" = none ∧
      (BuildFactory.create envNoJob 3 { jobId := "j", username := "u", sha := none }).1
          = Except.error (JsError.error "Job does not exist") ∧
        Event.datastoreCreate ∉ (BuildFactory.create envNoJob 3
          { jobId := "j", username := "u", sha := none }).2) ∧
    ((BuildFactory.create envNoUser 3 { jobId := "j", username := "u", sha := none }).1
          = Except.error (JsError.error "User does not exist") ∧
        Event.datastoreCreate ∉ (BuildFactory.create envNoUser 3
          { jobId := "j", username := "u", sha := none }).2) ∧
    ((BuildFactory.create envNoPipeline 3 { jobId := "j", username := "u", sha := none }).1
          = Except.error (JsError.error "Pipeline does not exist") ∧
        Event.datastoreCreate ∉ (BuildFactory.create envNoPipeline 3
          { jobId := "j", username := "u", sha := none }).2) :=
  ⟨⟨rfl, (claim_C2 envNoJob 3 { jobId := "j", username := "u", sha := none }).1 rfl⟩,
    (claim_C2 envNoUser 3 { jobId := "j", username := "u", sha := none }).2.1
      rfl sampleJob rfl rfl,
    (claim_C2 envNoPipeline 3 { jobId := "j", username := "u", sha := none }).2.2
      rfl noPipelineJob rfl { username := "u" } rfl rfl⟩

/-- C3 (amended): when `params.sha` is supplied and non-empty (JavaScript
truthy), resolution is short-circuited: the resolved sha is the supplied
value, and no user lookup, token unsealing or scm commit lookup happens. -/
theorem claim_C3 (env : Env) (number : Nat) (config : CreateConfig)
    (s : String) (hs : config.sha = some s) (hne : s ≠ "") :
    (∀ b, (BuildFactory.create env number config).1 = Except.ok b →
      b.sha = s) ∧
    (∀ e ∈ (BuildFactory.create env number config).2,
      (∀ u, e ≠ Event.getUser u) ∧ e ≠ Event.unsealToken ∧
        ∀ url t, e ≠ Event.scmGetCommitSha url t) := by
  have ht : truthy config.sha = true := by
    rw [hs]
    simpa [truthy] using hne
  constructor
  · intro b hb
    obtain ⟨job, sha, permutation, hjob, hsha, hperm, hbeq⟩ :=
      create_ok_inv env number config b hb
    rw [getCommitSha_of_truthy env job config.sha config.username ht] at hsha
    rw [hs] at hsha
    simp only [Option.getD_some] at hsha
    obtain rfl : s = sha := by simpa using hsha
    rw [hbeq]
  · unfold BuildFactory.create
    split
    · intro e he
      simp only [List.mem_singleton] at he
      subst he
      exact ⟨fun u => by simp, by simp, fun url t => by simp⟩
    · rename_i job hjob
      rw [getCommitSha_of_truthy env job config.sha config.username ht]
      dsimp only
      split
      · intro e he
        simp only [List.mem_cons, List.not_mem_nil, or_false] at he
        subst he
        exact ⟨fun u => by simp, by simp, fun url t => by simp⟩
      · split
        · intro e he
          simp at he
          rcases he with he | he <;> subst he <;>
            exact ⟨fun u => by simp, by simp, fun url t => by simp⟩
        · intro e he
          simp at he
          rcases he with he | he | he <;> subst he <;>
            exact ⟨fun u => by simp, by simp, fun url t => by simp⟩

/-- C3 counterexample to the claim as stated: with `sha: ""` the sha IS
supplied, yet the user lookup is still performed (and the resolved sha is
not the supplied one): JavaScript truthiness treats `""` as absent. -/
theorem claim_C3_cex :
    ({ jobId := "j", username := "alice", sha := some "" } : CreateConfig).sha
        = some "" ∧
    Event.getUser "alice" ∈ (BuildFactory.create sampleEnv 2
        { jobId := "j", username := "alice", sha := some "" }).2 ∧
    (BuildFactory.create sampleEnv 2
        { jobId := "j", username := "alice", sha := some "" }).1
      ≠ Except.ok { sampleBuild with sha := "" } := by
  refine ⟨rfl, by decide, by decide⟩

/-- C3 witness: a supplied non-empty sha short-circuits resolution. -/
theorem claim_C3_witness :
    ({ jobId := "j", username := "u", sha := some "abc123" } : CreateConfig).sha
        = some "abc123" ∧
    "abc123" ≠ "" ∧
    ((∀ b, (BuildFactory.create sampleEnv 2
          { jobId := "j", username := "u", sha := some "abc123" }).1
        = Except.ok b → b.sha = "abc123") ∧
      (∀ e ∈ (BuildFactory.create sampleEnv 2
          { jobId := "j", username := "u", sha := some "abc123" }).2,
        (∀ u, e ≠ Event.getUser u) ∧ e ≠ Event.unsealToken ∧
          ∀ url t, e ≠ Event.scmGetCommitSha url t)) :=
  ⟨rfl, by decide,
    claim_C3 sampleEnv 2 { jobId := "j", username := "u", sha := some "abc123" }
      "abc123" rfl (by decide)⟩

/-- C1: a successful `create` on a job whose selected permutation is
`{image:"node:8", commands:[install, test]}` with a supplied sha `"abc123"`
yields steps `[sd-setup, install, test, sd-teardown]`, container `"node:8"`,
sha `"abc123"`, status `"QUEUED"`; in general the steps are the selected
permutation's command names bracketed by the synthetic setup/teardown
markers, so `steps.length = commands.length + 2`. -/
theorem claim_C1 :
    (∀ (env : Env) (number : Nat) (config : CreateConfig) (job : Job)
        (b : BuildData),
      env.getJob config.jobId = some job →
      job.permutations.get? (permutationIndex number)
          = some ⟨"node:8", [{ name := "install" }, { name := "test" }]⟩ →
      config.sha = some "abc123" →
      (BuildFactory.create env number config).1 = Except.ok b →
      b.steps = [{ name := "sd-setup" }, { name := "install" },
        { name := "test" }, { name := "sd-teardown" }] ∧
      b.container = "node:8" ∧ b.sha = "abc123" ∧ b.status = "QUEUED") ∧
    (∀ (env : Env) (number : Nat) (config : CreateConfig) (job : Job)
        (b : BuildData),
      env.getJob config.jobId = some job →
      (BuildFactory.create env number config).1 = Except.ok b →
      ∃ p, job.permutations.get? (permutationIndex number) = some p ∧
        b.steps.length = p.commands.length + 2 ∧
        b.steps.head? = some { name := "sd-setup" } ∧
        b.steps.getLast? = some { name := "sd-teardown" } ∧
        (b.steps.drop 1).dropLast
          = p.commands.map (fun c => ({ name := c.name } : Step))) := by
  constructor
  · intro env number config job b hjob hsel hsha hb
    obtain ⟨job', sha, p, hjob', hsha', hperm, hbeq⟩ :=
      create_ok_inv env number config b hb
    rw [hjob] at hjob'
    injection hjob' with e
    subst e
    rw [hsel] at hperm
    injection hperm with e
    subst e
    rw [getCommitSha_of_truthy env job config.sha config.username
      (by rw [hsha]; decide)] at hsha'
    rw [hsha] at hsha'
    simp only [Option.getD_some] at hsha'
    obtain rfl : "abc123" = sha := by simpa using hsha'
    subst hbeq
    exact ⟨rfl, rfl, rfl, rfl⟩
  · intro env number config job b hjob hb
    obtain ⟨job', sha, p, hjob', hsha', hperm, hbeq⟩ :=
      create_ok_inv env number config b hb
    rw [hjob] at hjob'
    injection hjob' with e
    subst e
    refine ⟨p, hperm, ?_, ?_, ?_, ?_⟩
    · rw [hbeq]
      simp
    · rw [hbeq]
      rfl
    · rw [hbeq, ← List.cons_append, List.getLast?_concat]
    · rw [hbeq]
      simp

/-- C1 witness at the spec's concrete scenario. -/
theorem claim_C1_witness :
    sampleEnv.getJob "job1" = some sampleJob ∧
    sampleJob.permutations.get? (permutationIndex 7)
        = some ⟨"node:8", [{ name := "install" }, { name := "test" }]⟩ ∧
    (BuildFactory.create sampleEnv 7
        { jobId := "job1", username := "myuser", sha := some "abc123" }).1
      = Except.ok sampleBuild ∧
    (sampleBuild.steps = [{ name := "sd-setup" }, { name := "install" },
        { name := "test" }, { name := "sd-teardown" }] ∧
      sampleBuild.container = "node:8" ∧ sampleBuild.sha = "abc123" ∧
      sampleBuild.status = "QUEUED") ∧
    (∃ p, sampleJob.permutations.get? (permutationIndex 7) = some p ∧
      sampleBuild.steps.length = p.commands.length + 2 ∧
      sampleBuild.steps.head? = some { name := "sd-setup" } ∧
      sampleBuild.steps.getLast? = some { name := "sd-teardown" } ∧
      (sampleBuild.steps.drop 1).dropLast
        = p.commands.map (fun c => ({ name := c.name } : Step))) :=
  ⟨rfl, by decide, by decide,
    claim_C1.1 sampleEnv 7
      { jobId := "job1", username := "myuser", sha := some "abc123" }
      sampleJob sampleBuild rfl (by decide) rfl (by decide),
    claim_C1.2 sampleEnv 7
      { jobId := "job1", username := "myuser", sha := some "abc123" }
      sampleJob sampleBuild rfl (by decide)⟩

/-- C5: the first `getInstance` call (module `instance` still unset) with a
missing executor, uiUri or scmPlugin throws a configuration error and leaves
no instance constructed; a first call with all three present constructs and
caches the instance; every later call returns the cached instance identically,
whatever its config. -/
theorem claim_C5 (config : Option FactoryConfig) (i : BFInstance) :
    (((config.bind fun c => c.executor).isSome = false ∨
        truthy (config.bind fun c => c.uiUri) = false ∨
        (config.bind fun c => c.scmPlugin).isSome = false) →
      ∃ msg, BuildFactory.getInstance none config
          = (Except.error (JsError.error msg), none)) ∧
    ((config.bind fun c => c.executor).isSome = true →
      truthy (config.bind fun c => c.uiUri) = true →
      (config.bind fun c => c.scmPlugin).isSome = true →
      BuildFactory.getInstance none config
        = (Except.ok { config := config }, some { config := config })) ∧
    BuildFactory.getInstance (some i) config = (Except.ok i, some i) := by
  refine ⟨?_, ?_, ?_⟩
  · intro h
    by_cases h1 : (config.bind fun c => c.executor).isSome
    · by_cases h2 : truthy (config.bind fun c => c.uiUri)
      · by_cases h3 : (config.bind fun c => c.scmPlugin).isSome
        · rcases h with h | h | h <;> simp_all
        · refine ⟨"No scm plugin provided to BuildFactory", ?_⟩
          simp [BuildFactory.getInstance, h1, h2,
            Bool.eq_false_iff.mpr h3]
      · refine ⟨"No uiUri provided to BuildFactory", ?_⟩
        simp [BuildFactory.getInstance, h1, Bool.eq_false_iff.mpr h2]
    · refine ⟨"No executor provided to BuildFactory", ?_⟩
      simp [BuildFactory.getInstance, Bool.eq_false_iff.mpr h1]
  · intro h1 h2 h3
    simp [BuildFactory.getInstance, h1, h2, h3, BaseFactory.getInstance]
  · simp [BuildFactory.getInstance, BaseFactory.getInstance]

/-- C5 witness: missing executor throws; full config constructs; a second
call with a different (absent) config returns the cached instance. -/
theorem claim_C5_witness :
    ((some noExecConfig).bind (fun c => c.executor)).isSome = false ∧
    (∃ msg, BuildFactory.getInstance none (some noExecConfig)
        = (Except.error (JsError.error msg), none)) ∧
    ((some fullConfig).bind (fun c => c.executor)).isSome = true ∧
    truthy ((some fullConfig).bind fun c => c.uiUri) = true ∧
    ((some fullConfig).bind (fun c => c.scmPlugin)).isSome = true ∧
    BuildFactory.getInstance none (some fullConfig)
        = (Except.ok { config := some fullConfig },
            some { config := some fullConfig }) ∧
    BuildFactory.getInstance (some { config := some fullConfig }) none
        = (Except.ok { config := some fullConfig },
            some { config := some fullConfig }) :=
  ⟨by decide,
    (claim_C5 (some noExecConfig) { config := none }).1 (Or.inl (by decide)),
    by decide, by decide, by decide,
    (claim_C5 (some fullConfig) { config := none }).2.1 (by decide) (by decide)
      (by decide),
    (claim_C5 none { config := some fullConfig }).2.2⟩

/-- C6 (amended): `getBuildsForJobId` invokes the datastore listing with the
`jobId` filter and fixed `{count: 25, page: 1}` pagination, and returns a
permutation of the returned records sorted ascending by `number` — strictly
ascending whenever the returned records' numbers are pairwise distinct. -/
theorem claim_C6 (listFn : ListConfig → List BuildData) (jobId : String) :
    getBuildsForJobId listFn jobId
        = List.insertionSort numberLE
            (listFn { jobId := jobId, count := 25, page := 1 }) ∧
    List.Sorted numberLE (getBuildsForJobId listFn jobId) ∧
    List.Perm (getBuildsForJobId listFn jobId)
        (listFn { jobId := jobId, count := 25, page := 1 }) ∧
    (List.Pairwise (fun a b : BuildData => a.number ≠ b.number)
        (listFn { jobId := jobId, count := 25, page := 1 }) →
      List.Pairwise (fun a b : BuildData => a.number < b.number)
        (getBuildsForJobId listFn jobId)) := by
  refine ⟨rfl, List.sorted_insertionSort numberLE _,
    List.perm_insertionSort numberLE _, ?_⟩
  intro hne
  have hperm : List.Perm (getBuildsForJobId listFn jobId)
      (listFn { jobId := jobId, count := 25, page := 1 }) :=
    List.perm_insertionSort numberLE _
  have hne' : List.Pairwise (fun a b : BuildData => a.number ≠ b.number)
      (getBuildsForJobId listFn jobId) :=
    (hperm.pairwise_iff (fun h => h.symm)).mpr hne
  have hle : List.Pairwise numberLE (getBuildsForJobId listFn jobId) :=
    List.sorted_insertionSort numberLE _
  exact (hle.and hne').imp (fun h => Nat.lt_of_le_of_ne h.1 h.2)

/-- C6 witness: an unsorted datastore answer with distinct numbers. -/
theorem claim_C6_witness :
    List.Pairwise (fun a b : BuildData => a.number ≠ b.number)
        ((fun _ => [buildA, buildC]) ({ jobId := "j", count := 25, page := 1 } : ListConfig)) ∧
    (getBuildsForJobId (fun _ => [buildA, buildC]) "j"
        = List.insertionSort numberLE [buildA, buildC] ∧
      List.Sorted numberLE (getBuildsForJobId (fun _ => [buildA, buildC]) "j") ∧
      List.Perm (getBuildsForJobId (fun _ => [buildA, buildC]) "j")
        [buildA, buildC] ∧
      List.Pairwise (fun a b : BuildData => a.number < b.number)
        (getBuildsForJobId (fun _ => [buildA, buildC]) "j")) :=
  ⟨by decide,
    (claim_C6 (fun _ => [buildA, buildC]) "j").1,
    (claim_C6 (fun _ => [buildA, buildC]) "j").2.1,
    (claim_C6 (fun _ => [buildA, buildC]) "j").2.2.1,
    (claim_C6 (fun _ => [buildA, buildC]) "j").2.2.2 (by decide)⟩

/-- C6 counterexample to "strictly ascending": two records share `number = 5`,
so the result cannot be strictly ascending by `number`. -/
theorem claim_C6_cex :
    getBuildsForJobId (fun _ => [buildA, buildB]) "j" = [buildA, buildB] ∧
    buildA.number = buildB.number ∧ buildA ≠ buildB ∧
    ¬ List.Pairwise (fun a b : BuildData => a.number < b.number)
        (getBuildsForJobId (fun _ => [buildA, buildB]) "j") := by
  refine ⟨by decide, rfl, by decide, ?_⟩
  intro hp
  rw [show getBuildsForJobId (fun _ => [buildA, buildB]) "j"
      = [buildA, buildB] by decide] at hp
  rcases hp with _ | ⟨h, _⟩
  exact absurd (h buildB (List.mem_singleton_self _)) (by decide)

/-- C4: `update()` on a clean record is a no-op resolving with the unchanged
record; on a dirty record it makes exactly one datastore update call carrying
`{table, params: {id, data}}` with `data` exactly the dirty fields, resolves
with the record (snapshot replaced by current values, hence clean) on success,
and rejects with the underlying datastore error unchanged on failure. -/
theorem claim_C4 (m : BaseModel) (ds : UpdateCall → Except String Unit)
    (hwf : m.WF) :
    (m.isDirty none = false → m.update ds = (Except.ok m, [])) ∧
    (m.isDirty none = true →
      (m.update ds).2
          = [{ table := m.table, id := m.getId, data := m.changedFields }] ∧
      (∀ k v, (k, v) ∈ m.changedFields ↔
        (m.isDirty (some k) = true ∧ m.current.lookup k = some v)) ∧
      (∀ e, ds { table := m.table, id := m.getId, data := m.changedFields }
          = Except.error e → (m.update ds).1 = Except.error e) ∧
      (ds { table := m.table, id := m.getId, data := m.changedFields }
          = Except.ok () →
        (m.update ds).1 = Except.ok { m with snapshot := m.current } ∧
        ({ m with snapshot := m.current } : BaseModel).isDirty none = false)) := by
  obtain ⟨hnd, hck, hsk⟩ := hwf
  constructor
  · intro hd
    have hcf : m.changedFields = [] :=
      (isDirty_none_false_iff m ⟨hnd, hck, hsk⟩).mp hd
    unfold BaseModel.update
    rw [hcf]
    rfl
  · intro hd
    have hne : m.changedFields ≠ [] := by
      intro hcf
      rw [(isDirty_none_false_iff m ⟨hnd, hck, hsk⟩).mpr hcf] at hd
      cases hd
    have hemp : m.changedFields.isEmpty = false := by
      simpa using hne
    refine ⟨?_, ?_, ?_, ?_⟩
    · unfold BaseModel.update
      rw [if_neg (by simp [hemp])]
      cases hds : ds { table := m.table, id := m.getId, data := m.changedFields } <;>
        simp [hds]
    · intro k v
      constructor
      · intro hmem
        have hmem' := List.mem_filter.mp hmem
        have hcur : m.current.lookup k = some v :=
          lookup_eq_some_of_mem _ _ _ (hck ▸ hnd) hmem'.1
        have hsnap : m.snapshot.lookup k ≠ some v := by
          simpa using hmem'.2
        refine ⟨?_, hcur⟩
        simp only [BaseModel.isDirty, hcur]
        rw [bne_iff_ne]
        intro e
        exact hsnap e.symm
      · rintro ⟨hdk, hcur⟩
        refine List.mem_filter.mpr ⟨mem_of_lookup_eq_some _ _ _ hcur, ?_⟩
        simp only [BaseModel.isDirty, hcur] at hdk
        rw [bne_iff_ne] at hdk
        simpa using fun e => hdk e.symm
    · intro e hds
      unfold BaseModel.update
      rw [if_neg (by simp [hemp])]
      dsimp only
      rw [hds]
    · intro hds
      unfold BaseModel.update
      rw [if_neg (by simp [hemp])]
      dsimp only
      rw [hds]
      refine ⟨rfl, ?_⟩
      simp [BaseModel.isDirty]

/-- C4 witness: the test's record, clean and after `base.foo = 'banana'`,
against a succeeding and a failing datastore. -/
theorem claim_C4_witness :
    (sampleBase.WF ∧ sampleBase.isDirty none = false ∧
      sampleBase.update dsOk = (Except.ok sampleBase, [])) ∧
    (sampleDirty.WF ∧ sampleDirty.isDirty none = true ∧
      (sampleDirty.update dsOk).2
          = [⟨sampleDirty.table, sampleDirty.getId,
              sampleDirty.changedFields⟩] ∧
      (sampleDirty.update dsFail).1 = Except.error "iLessThanThreeMocha" ∧
      (sampleDirty.update dsOk).1
          = Except.ok { sampleDirty with snapshot := sampleDirty.current } ∧
      ({ sampleDirty with snapshot := sampleDirty.current } : BaseModel).isDirty
          none = false) :=
  ⟨⟨⟨by decide, by decide, by decide⟩, by decide,
      (claim_C4 sampleBase dsOk ⟨by decide, by decide, by decide⟩).1 (by decide)⟩,
    ⟨by decide, by decide, by decide⟩, by decide,
    ((claim_C4 sampleDirty dsOk ⟨by decide, by decide, by decide⟩).2 (by decide)).1,
    ((claim_C4 sampleDirty dsFail ⟨by decide, by decide, by decide⟩).2 (by decide)).2.2.1
      "iLessThanThreeMocha" (by decide),
    (((claim_C4 sampleDirty dsOk ⟨by decide, by decide, by decide⟩).2 (by decide)).2.2.2
      (by decide)).1,
    (((claim_C4 sampleDirty dsOk ⟨by decide, by decide, by decide⟩).2 (by decide)).2.2.2
      (by decide)).2⟩

/-- C8: `isDirty()` is false right after construction; assigning a declared
field a value different from its snapshot makes `isDirty()` and `isDirty(k)`
true; and any successful `update()` leaves the record clean again. -/
theorem claim_C8 :
    (∀ (table : String) (allKeys : List String)
        (config : List (String × String)),
      (BaseModel.construct table allKeys config).isDirty none = false) ∧
    (∀ (m : BaseModel), m.WF → ∀ (k : String) (v : String), k ∈ m.allKeys →
      m.snapshot.lookup k ≠ some (some v) →
      (m.set k v).isDirty none = true ∧ (m.set k v).isDirty (some k) = true) ∧
    (∀ (m : BaseModel) (ds : UpdateCall → Except String Unit)
        (m' : BaseModel), m.WF → (m.update ds).1 = Except.ok m' →
      m'.isDirty none = false) := by
  refine ⟨?_, ?_, ?_⟩
  · intro table allKeys config
    simp [BaseModel.isDirty, BaseModel.construct]
  · intro m hwf k v hk hsnap
    obtain ⟨hnd, hck, hsk⟩ := hwf
    have hcur : (m.set k v).current.lookup k = some (some v) :=
      lookup_set_self m.current k v (hck.symm ▸ hk)
    have hsnap' : (m.set k v).snapshot.lookup k = m.snapshot.lookup k := rfl
    have hdk : (m.set k v).isDirty (some k) = true := by
      simp only [BaseModel.isDirty, hcur, hsnap']
      rw [bne_iff_ne]
      intro e
      exact hsnap e.symm
    refine ⟨?_, hdk⟩
    simp only [BaseModel.isDirty, List.any_eq_true]
    refine ⟨k, ?_, ?_⟩
    · show k ∈ (m.set k v).allKeys
      exact hk
    · simp only [BaseModel.isDirty] at hdk
      exact hdk
  · intro m ds m' hwf hupd
    unfold BaseModel.update at hupd
    by_cases hcf : m.changedFields = []
    · rw [hcf] at hupd
      simp only [List.isEmpty_nil, if_true] at hupd
      obtain rfl : m = m' := by simpa using hupd
      exact (isDirty_none_false_iff m hwf).mpr hcf
    · rw [if_neg (by simpa using hcf)] at hupd
      dsimp only at hupd
      split at hupd
      · cases hupd
      · have : m' = { m with snapshot := m.current } := by
          simpa using hupd.symm
        subst this
        simp [BaseModel.isDirty]

/-- C8 witness: the test's construction, mutation and update scenario. -/
theorem claim_C8_witness :
    (BaseModel.construct "base" ["id", "foo", "bar"] sampleConfig).isDirty none
        = false ∧
    (sampleBase.WF ∧ "foo" ∈ sampleBase.allKeys ∧
      sampleBase.snapshot.lookup "foo" ≠ some (some "banana") ∧
      ((sampleBase.set "foo" "banana").isDirty none = true ∧
        (sampleBase.set "foo" "banana").isDirty (some "foo") = true)) ∧
    ((sampleDirty.update dsOk).1
        = Except.ok { sampleDirty with snapshot := sampleDirty.current } ∧
      ({ sampleDirty with snapshot := sampleDirty.current } : BaseModel).isDirty
          none = false) :=
  ⟨claim_C8.1 "base" ["id", "foo", "bar"] sampleConfig,
    ⟨⟨by decide, by decide, by decide⟩, by decide, by decide,
      claim_C8.2.1 sampleBase ⟨by decide, by decide, by decide⟩ "foo" "banana"
        (by decide) (by decide)⟩,
    by decide,
    claim_C8.2.2 sampleDirty dsOk
      { sampleDirty with snapshot := sampleDirty.current }
      ⟨by decide, by decide, by decide⟩ (by decide)⟩
